import Mathlib

/-!
# Verification of the College_Database ETL pipeline

A shallow embedding of the core loaders of the repository
(`load-ipeds.py`, `load-scorecard.py`, `load-scorecard_copy.py`):
value cleaning, row mapping, year extraction, insert-vs-update
partitioning, fact filtering against known keys, and the batch-write /
failure-logging / exit behaviour of each script's `main`.

Python scalar values that flow through the pipeline are modelled by
`PyVal`; database effects are modelled by an explicit result record
(`RunResult`) holding the committed writes, the appended failure-log
records, and the process exit code.  Statement execution failures
(constraint violations and the like) are supplied as oracles
(`List PyVal → Bool`), one per SQL statement, telling which parameter
row the store would reject; `executemany` semantics are: rows are
executed in order and the first rejected row raises, with
`cursor.rowcount` equal to the number of rows already executed (the
scripts rely on exactly this to index the failing row).
-/

/-- A Python scalar value as it occurs in the loaders: `None`, a string,
a (rational) number, or the float `nan` that pandas uses for missing
cells.  `nan` is kept separate from other numbers because `pd.isna`,
`==` and `<` all treat it specially. -/
inductive PyVal where
  | vNone : PyVal
  | vStr : String → PyVal
  | vNum : Rat → PyVal
  | vNan : PyVal
deriving DecidableEq, Repr

/-- Python's `str.strip()` on a list of characters: drop leading and
trailing whitespace. -/
def stripChars (l : List Char) : List Char :=
  List.rdropWhile Char.isWhitespace (List.dropWhile Char.isWhitespace l)

/-- Python's `str.strip()` (no argument): remove surrounding whitespace.
(Lean's `Char.isWhitespace` covers the ASCII whitespace the data files
contain.) -/
def pyStrip (s : String) : String :=
  String.mk (stripChars s.data)

/-- Python `==` between scalar values: `None == None` is true, strings
and numbers compare by value (`5 == 5.0` holds, hence one numeric
constructor), `nan` is not equal to anything including itself, and
values of different kinds are unequal. -/
def pyEq : PyVal → PyVal → Bool
  | .vNone, .vNone => true
  | .vStr a, .vStr b => a == b
  | .vNum a, .vNum b => a == b
  | _, _ => false

/-- Python's `in` over a collection of scalar values (`==`-based
membership, as used for `inst_id in existing_ids` and
`row[0] in valid_ids`). -/
def pyMem (v : PyVal) (l : List PyVal) : Bool :=
  l.any (fun w => pyEq v w)

/-- `clean` of `load-ipeds.py` (lines 21–43): `None` passes through;
a string is stripped and checked against the two sentinel sets
`{"", "NA", "N/A", "NULL"}` and `{"-3", "-2", "-999"}`, otherwise the
stripped string is returned; a negative number yields `None`
(`isinstance(value, (int, float)) and value < 0`); anything else is
returned unchanged.  `nan < 0` is false in Python, so `nan` falls
through to the final `return value`. -/
def cleanIpeds : PyVal → PyVal
  | .vNone => .vNone
  | .vStr s =>
      let v := pyStrip s
      if v = "" ∨ v = "NA" ∨ v = "N/A" ∨ v = "NULL" then .vNone
      else if v = "-3" ∨ v = "-2" ∨ v = "-999" then .vNone
      else .vStr v
  | .vNum q => if q < 0 then .vNone else .vNum q
  | .vNan => .vNan

/-- `clean` of `load-scorecard.py` (lines 21–38), textually identical in
`load-scorecard_copy.py` (lines 13–24): `None` and `pd.isna` values
(i.e. `nan`) yield `None`; a string is stripped and checked against
`{"", "NA", "N/A", "nan", "NULL"}` and `{"-3", "-2", "-999"}`; every
other value — including a negative number — is returned unchanged
(this variant has no negative-number branch). -/
def cleanScorecard : PyVal → PyVal
  | .vNone => .vNone
  | .vNan => .vNone
  | .vStr s =>
      let v := pyStrip s
      if v = "" ∨ v = "NA" ∨ v = "N/A" ∨ v = "nan" ∨ v = "NULL" then .vNone
      else if v = "-3" ∨ v = "-2" ∨ v = "-999" then .vNone
      else .vStr v
  | .vNum q => .vNum q

/-- Python's `str.isdigit()` restricted to the ASCII digits that occur
in file names: true iff the string is nonempty and all characters are
digits. -/
def pyIsdigit (s : String) : Bool :=
  s.length != 0 && s.data.all Char.isDigit

/-- Python's `str.split(sep)` for a one-character separator, on the
character list: every occurrence separates, empty pieces are kept
(`"a..b".split(".") == ["a", "", "b"]`, `"".split(".") == [""]`). -/
def splitChar (c : Char) : List Char → List (List Char)
  | [] => [[]]
  | x :: xs =>
      let r := splitChar c xs
      if x = c then [] :: r
      else
        match r with
        | [] => [[x]]
        | h :: t => (x :: h) :: t

/-- Python's `str.split(sep)` for a one-character separator. -/
def pySplit (c : Char) (s : String) : List String :=
  (splitChar c s.data).map String.mk

/-- The decimal value of an all-digit string, i.e. `int(part)` once
`part.isdigit()` has been checked. -/
def digitsToNat (l : List Char) : Nat :=
  l.foldl (fun acc c => acc * 10 + (c.toNat - 48)) 0

/-- `extract_year` of `load-scorecard.py` (lines 41–56), textually
identical in `load-scorecard_copy.py` (lines 27–35): take the last
`/`-separated component of the path, the part before the first `.`,
split on `_`, and return `int(part)` for the first all-digit part
scanning from the right.  When no part is all digits the Python
function falls off the end and implicitly returns `None`. -/
def extract_year (path : String) : Option Nat :=
  let filename := ((pySplit '/' path).getLastD "")
  let filename := ((pySplit '.' filename).headD "")
  let parts := pySplit '_' filename
  ((parts.reverse.find? pyIsdigit).map (fun p => digitsToNat p.data))

/-- Python's integer-literal syntax for `int(str)` on an
already-stripped string: an optional sign followed by at least one
digit.  (Underscore digit grouping is not modelled; no file name or
key field uses it.) -/
def parseIntChars (l : List Char) : Option Int :=
  match l with
  | '-' :: rest =>
      if rest ≠ [] ∧ rest.all Char.isDigit then some (-(digitsToNat rest : Int)) else none
  | '+' :: rest =>
      if rest ≠ [] ∧ rest.all Char.isDigit then some ((digitsToNat rest : Int)) else none
  | _ =>
      if l ≠ [] ∧ l.all Char.isDigit then some ((digitsToNat l : Int)) else none

/-- Python's `int(...)` coercion as used on `rec.get("UNITID")`: a
number is truncated toward zero, a string is parsed after stripping
whitespace (raising `ValueError` when it is not an integer literal),
and `None` / `nan` raise (`TypeError` / `ValueError`).  An `Except`
error models the raised exception, which none of the loaders catch. -/
def pyInt : PyVal → Except String Int
  | .vNum q => .ok (q.num.tdiv (q.den : Int))
  | .vStr s =>
      match parseIntChars (pyStrip s).data with
      | some n => .ok n
      | none => .error "ValueError: invalid literal for int"
  | .vNone => .error "TypeError: int() argument is None"
  | .vNan => .error "ValueError: cannot convert float NaN to integer"

/-- Python's `str(...)` on a scalar, used only in the
`str(unitid).strip() == ""` test of `load-scorecard.py`:
`str(None) = "None"`, `str(nan) = "nan"`, a string is itself.  The
rendering of numbers differs from CPython's, but on this code path only
its (non-)emptiness after stripping is ever inspected, and both
renderings are nonempty without surrounding whitespace. -/
def pyStr : PyVal → String
  | .vNone => "None"
  | .vStr s => s
  | .vNum q => toString q
  | .vNan => "nan"

/-- A parsed CSV record as pandas hands it to the loaders: an
association of (upper-cased, stripped) column names to scalar values.
`rget` is Python's `rec.get(key)`: the value when the key is present,
else `None`. -/
abbrev Record : Type := List (String × PyVal)

/-- `rec.get(key)` — dictionary lookup defaulting to `None`. -/
def rget (rec : Record) (k : String) : PyVal :=
  match rec.find? (fun p => p.1 == k) with
  | some p => p.2
  | none => .vNone

/-- A mapped row: the key (first tuple element) and the remaining
fields in destination-column order. -/
abbrev Row : Type := PyVal × List PyVal

/-- The row as the flat parameter tuple handed to an INSERT statement
(key first). -/
def flat (r : Row) : List PyVal := r.1 :: r.2

/-- `row[1:] + (inst_id,)` of `load-ipeds.py` line 132: the UPDATE
parameter order, key moved to the final position, other fields
unchanged. -/
def reshape (r : Row) : List PyVal := r.2 ++ [r.1]

/-- `to_row` of `load-ipeds.py` (lines 46–70): the 15-field
Institutions tuple.  `int(rec.get("UNITID"))` raises (uncaught) when
the field is absent, `nan` or non-numeric, so the mapper is fallible;
every other field is `clean(rec.get(...))`, and the `accredagency`
slot is the literal `None`. -/
def to_row (rec : Record) : Except String Row :=
  match pyInt (rget rec "UNITID") with
  | .error e => .error e
  | .ok uid => .ok (cleanIpeds (.vNum (uid : Rat)),
    [cleanIpeds (rget rec "INSTNM"),
     .vNone,
     cleanIpeds (rget rec "CONTROL"),
     cleanIpeds (rget rec "C21BASIC"),
     cleanIpeds (rget rec "OBEREG"),
     cleanIpeds (rget rec "CBSA"),
     cleanIpeds (rget rec "CSA"),
     cleanIpeds (rget rec "COUNTYCD"),
     cleanIpeds (rget rec "CITY"),
     cleanIpeds (rget rec "STABBR"),
     cleanIpeds (rget rec "ADDR"),
     cleanIpeds (rget rec "ZIP"),
     cleanIpeds (rget rec "LATITUDE"),
     cleanIpeds (rget rec "LONGITUD")])

/-- A Python row-building loop (`[f(rec) for rec in records]` or the
equivalent `for`-append loop): rows are produced in order and the first
record on which `f` raises aborts the whole build with that
exception. -/
def buildRows (f : Record → Except String Row) : List Record → Except String (List Row)
  | [] => .ok []
  | rec :: recs =>
      match f rec, buildRows f recs with
      | .ok r, .ok rs => .ok (r :: rs)
      | .error e, _ => .error e
      | .ok _, .error e => .error e

/-- `[to_row(rec) for rec in data.to_dict(orient="records")]` of
`load-ipeds.py` line 98: the first record on which `to_row` raises
aborts the whole comprehension (and, uncaught, the run). -/
def mapRowsIpeds (records : List Record) : Except String (List Row) :=
  buildRows to_row records

/-- The insert-vs-update partition of `load-ipeds.py` lines 124–136:
each mapped row goes to the update list reshaped key-last when
`row[0] in existing_ids`, else to the insert list unchanged, both in
source order. -/
def partitionIpeds (existing : List PyVal) : List Row → List Row × List (List PyVal)
  | [] => ([], [])
  | r :: rs =>
      let p := partitionIpeds existing rs
      if pyMem r.1 existing then (p.1, reshape r :: p.2)
      else (r :: p.1, p.2)

/-- The year value placed in fact tuples: the extracted year, or
`None` when `extract_year` found no digit token. -/
def yearVal : Option Nat → PyVal
  | some y => .vNum (y : Rat)
  | none => .vNone

/-- One Students tuple, `build_students_rows` of `load-scorecard.py`
(lines 58–78): `(clean(int(UNITID)), year, clean(ADM_RATE),
clean(UGDS), clean(ACTCMMID), clean(CDR2), clean(CDR3))`. -/
def studentsRow (year : Option Nat) (rec : Record) : Except String Row :=
  match pyInt (rget rec "UNITID") with
  | .error e => .error e
  | .ok uid => .ok (cleanScorecard (.vNum (uid : Rat)),
    [yearVal year,
     cleanScorecard (rget rec "ADM_RATE"),
     cleanScorecard (rget rec "UGDS"),
     cleanScorecard (rget rec "ACTCMMID"),
     cleanScorecard (rget rec "CDR2"),
     cleanScorecard (rget rec "CDR3")])

/-- `build_students_rows` of `load-scorecard.py`: map `studentsRow`
over the records; an uncaught `int()` failure on any record aborts the
build. -/
def build_students_rows (records : List Record) (year : Option Nat) :
    Except String (List Row) :=
  buildRows (studentsRow year) records

/-- One Financials tuple, `build_financials_rows` of
`load-scorecard.py` (lines 81–101). -/
def financialsRow (year : Option Nat) (rec : Record) : Except String Row :=
  match pyInt (rget rec "UNITID") with
  | .error e => .error e
  | .ok uid => .ok (cleanScorecard (.vNum (uid : Rat)),
    [yearVal year,
     cleanScorecard (rget rec "TUITIONFEE_IN"),
     cleanScorecard (rget rec "TUITIONFEE_OUT"),
     cleanScorecard (rget rec "TUITIONFEE_PROG"),
     cleanScorecard (rget rec "TUITFTE"),
     cleanScorecard (rget rec "AVGFACSAL")])

/-- `build_financials_rows` of `load-scorecard.py`. -/
def build_financials_rows (records : List Record) (year : Option Nat) :
    Except String (List Row) :=
  buildRows (financialsRow year) records

/-- One Academics tuple, `build_academics_rows` of `load-scorecard.py`
(lines 104–122), identical in `load-scorecard_copy.py`. -/
def academicsRow (year : Option Nat) (rec : Record) : Except String Row :=
  match pyInt (rget rec "UNITID") with
  | .error e => .error e
  | .ok uid => .ok (cleanScorecard (.vNum (uid : Rat)),
    [yearVal year,
     cleanScorecard (rget rec "PREDDEG"),
     cleanScorecard (rget rec "HIGHDEG"),
     cleanScorecard (rget rec "STUFACR")])

/-- `build_academics_rows` of `load-scorecard.py`. -/
def build_academics_rows (records : List Record) (year : Option Nat) :
    Except String (List Row) :=
  buildRows (academicsRow year) records

/-- The accredagency update tuples of `load-scorecard.py` lines
158–164: `(clean(ACCREDAGENCY), unitid)` for every record whose raw
`UNITID` is neither `None` nor blank after `str(...)` and `strip()`. -/
def buildAccredRows (records : List Record) : List (List PyVal) :=
  records.filterMap (fun r =>
    let unitid := rget r "UNITID"
    if unitid = .vNone ∨ pyStrip (pyStr unitid) = "" then none
    else some [cleanScorecard (rget r "ACCREDAGENCY"), unitid])

/-- The referential filter of `load-scorecard.py` lines 207–209:
`[row for row in rows if row[0] in valid_ids]`. -/
def filterFacts (validIds : List PyVal) (rows : List Row) : List Row :=
  rows.filter (fun r => pyMem r.1 validIds)

/-- A destination table of the store. -/
inductive Table where
  | institutions : Table
  | students : Table
  | financials : Table
  | academics : Table
deriving DecidableEq, Repr

/-- One committed statement execution: which table, with which
parameter tuple. -/
structure Write where
  table : Table
  row : List PyVal
deriving DecidableEq, Repr

/-- The row position recorded by `error_log`: a numeric index, or the
literal label `load-scorecard.py` passes for the accredagency batch. -/
inductive LogPos where
  | idx : Nat → LogPos
  | label : String → LogPos
deriving DecidableEq, Repr

/-- One `error_log` record: the reported row position and the offending
parameter tuple (`none` models the `"N/A"` placeholder of the
accredagency path). -/
structure LogRecord where
  pos : LogPos
  row : Option (List PyVal)
deriving DecidableEq, Repr

/-- The observable outcome of one script run: process exit code,
whether a usage message was printed, whether the interpreter died on an
uncaught exception (itself exit code 1), the writes made durable by a
`commit`, and the failure-log records appended. -/
structure RunResult where
  exit : Nat
  usage : Bool
  crashed : Bool
  committed : List Write
  log : List LogRecord
deriving DecidableEq, Repr

/-- An uncaught Python exception: traceback, exit code 1, nothing
committed, nothing logged, no usage message. -/
def pyCrash : RunResult :=
  { exit := 1, usage := false, crashed := true, committed := [], log := [] }

/-- `cursor.executemany(sql, rows)` under a per-row rejection oracle:
the index of the first rejected parameter tuple (at which the call
raises, with `cursor.rowcount` equal to that index), or `none` when
every tuple executes. -/
def firstFailure (fail : List PyVal → Bool) (rows : List (List PyVal)) : Option Nat :=
  rows.findIdx? fail

/-- The failing-index fix-up loop of `load-ipeds.py` (lines 150–154 and
173–177): scan the mapped rows for the first whose key equals the bad
row's key and report its 1-based position; when none matches the raw
cursor index is kept. -/
def fixIdxByKey (rows : List Row) (key : PyVal) (fallback : Nat) : Nat :=
  match rows.findIdx? (fun r => pyEq r.1 key) with
  | some idx => idx + 1
  | none => fallback

/-- The database phase of `load-ipeds.py` `main` (lines 121–188), after
the rows are mapped: partition against the existing ids, bulk-update,
bulk-insert, one final commit.  Either bulk statement's failure rolls
back the (single) transaction, appends exactly one `error_log` record
for the row at the cursor's reported index, and exits with code 1 —
there is no row-by-row fallback. -/
def ipedsRun2 (existing : List PyVal) (rows : List Row)
    (failUpd failIns : List PyVal → Bool) : RunResult :=
  let part := partitionIpeds existing rows
  let insertRows := part.1
  let updateRows := part.2
  match firstFailure failUpd updateRows with
  | some i =>
      let badRow := updateRows.getD i []
      { exit := 1, usage := false, crashed := false, committed := [],
        log := [⟨.idx (fixIdxByKey rows (badRow.getLastD .vNone) i), some badRow⟩] }
  | none =>
      match firstFailure failIns (insertRows.map flat) with
      | some i =>
          let badRow := (insertRows.map flat).getD i []
          { exit := 1, usage := false, crashed := false, committed := [],
            log := [⟨.idx (fixIdxByKey rows (badRow.headD .vNone) i), some badRow⟩] }
      | none =>
          { exit := 0, usage := false, crashed := false,
            committed := updateRows.map (Write.mk .institutions)
              ++ (insertRows.map flat).map (Write.mk .institutions),
            log := [] }

/-- `main` of `load-ipeds.py` (lines 90–188): `sys.argv[1]` raises an
uncaught `IndexError` when the argument is missing (no usage message,
interpreter exit code 1); a record on which `to_row` raises likewise
crashes the run; otherwise the database phase runs. -/
def runIpeds (argv : List String) (records : List Record) (existing : List PyVal)
    (failUpd failIns : List PyVal → Bool) : RunResult :=
  match argv.get? 1 with
  | none => pyCrash
  | some _ =>
      match mapRowsIpeds records with
      | .error _ => pyCrash
      | .ok rows => ipedsRun2 existing rows failUpd failIns

/-- The database phase of `load-scorecard.py` `main` (lines 183–263):
the accredagency batch is executed and committed on its own; the three
fact batches (each first filtered against the fetched valid ids) run in
one shared transaction whose only commit is after all three.  Any
batch's failure rolls back the open transaction, logs one record, and
exits 1 — so a later fact batch's failure discards an earlier fact
batch's executed rows, while the separately committed accredagency
update survives. -/
def scRun2 (accredRows : List (List PyVal)) (sRows fRows aRows : List Row)
    (validIds : List PyVal)
    (accredFail studFail finFail acadFail : List PyVal → Bool) : RunResult :=
  match firstFailure accredFail accredRows with
  | some _ =>
      { exit := 1, usage := false, crashed := false, committed := [],
        log := [⟨.label "accredagency_batch", none⟩] }
  | none =>
      let committed0 := accredRows.map (Write.mk .institutions)
      let sKept := (filterFacts validIds sRows).map flat
      let fKept := (filterFacts validIds fRows).map flat
      let aKept := (filterFacts validIds aRows).map flat
      match firstFailure studFail sKept with
      | some i =>
          { exit := 1, usage := false, crashed := false, committed := committed0,
            log := [⟨.idx i, some (sKept.getD i [])⟩] }
      | none =>
          match firstFailure finFail fKept with
          | some i =>
              { exit := 1, usage := false, crashed := false, committed := committed0,
                log := [⟨.idx i, some (fKept.getD i [])⟩] }
          | none =>
              match firstFailure acadFail aKept with
              | some i =>
                  { exit := 1, usage := false, crashed := false, committed := committed0,
                    log := [⟨.idx i, some (aKept.getD i [])⟩] }
              | none =>
                  { exit := 0, usage := false, crashed := false,
                    committed := committed0 ++ sKept.map (Write.mk .students)
                      ++ fKept.map (Write.mk .financials)
                      ++ aKept.map (Write.mk .academics),
                    log := [] }

/-- `main` of `load-scorecard.py` (lines 144–263): `sys.argv[1]`
(uncaught `IndexError` when missing), `extract_year` (its `None` result
is never checked), the accredagency tuples, the three fact builds (an
uncaught `int()` failure crashes the run), then the database phase. -/
def runScorecard (argv : List String) (records : List Record) (validIds : List PyVal)
    (accredFail studFail finFail acadFail : List PyVal → Bool) : RunResult :=
  match argv.get? 1 with
  | none => pyCrash
  | some csvPath =>
      let year := extract_year csvPath
      let accredRows := buildAccredRows records
      match build_students_rows records year, build_financials_rows records year,
            build_academics_rows records year with
      | .ok s, .ok f, .ok a =>
          scRun2 accredRows s f a validIds accredFail studFail finFail acadFail
      | _, _, _ => pyCrash

/-- One Students tuple of `load-scorecard_copy.py` (lines 38–53): as the
main loader's plus the `FIRSTGEN` and `FAMINC` columns. -/
def studentsRowCopy (year : Option Nat) (rec : Record) : Except String Row :=
  match pyInt (rget rec "UNITID") with
  | .error e => .error e
  | .ok uid => .ok (cleanScorecard (.vNum (uid : Rat)),
    [yearVal year,
     cleanScorecard (rget rec "ADM_RATE"),
     cleanScorecard (rget rec "UGDS"),
     cleanScorecard (rget rec "ACTCMMID"),
     cleanScorecard (rget rec "CDR2"),
     cleanScorecard (rget rec "CDR3"),
     cleanScorecard (rget rec "FIRSTGEN"),
     cleanScorecard (rget rec "FAMINC")])

/-- `build_students_rows` of `load-scorecard_copy.py`. -/
def build_students_rows_copy (records : List Record) (year : Option Nat) :
    Except String (List Row) :=
  buildRows (studentsRowCopy year) records

/-- One per-row insertion loop of `load-scorecard_copy.py` `main`
(lines 123–161): for each row, a per-row existence probe
(`SELECT 1 ... WHERE institution_id = %s`) skips rows whose key is not
a known institution id; a surviving row is executed, and a row the
store rejects rolls back the whole (single) transaction and exits 1
(`.error`), losing every previously executed row of the run.  On
success the executed writes are returned in order. -/
def copyLoop (tbl : Table) (validIds : List PyVal) (fail : List PyVal → Bool) :
    List Row → Except Nat (List Write)
  | [] => .ok []
  | r :: rs =>
      if pyMem r.1 validIds then
        if fail (flat r) then .error 1
        else
          match copyLoop tbl validIds fail rs with
          | .error e => .error e
          | .ok ws => .ok (Write.mk tbl (flat r) :: ws)
      else copyLoop tbl validIds fail rs

/-- `main` of `load-scorecard_copy.py` (lines 86–168): this variant
alone checks `len(sys.argv) != 2`, printing a usage message and exiting
with code 2 before any other work; otherwise it builds the three row
lists (uncaught `int()` failures crash the run) and runs the three
per-row loops, committing once at the very end. -/
def runCopy (argv : List String) (records : List Record) (validIds : List PyVal)
    (studFail finFail acadFail : List PyVal → Bool) : RunResult :=
  if argv.length ≠ 2 then
    { exit := 2, usage := true, crashed := false, committed := [], log := [] }
  else
    match argv.get? 1 with
    | none => pyCrash
    | some csvPath =>
        let year := extract_year csvPath
        match build_students_rows_copy records year, build_financials_rows records year,
              build_academics_rows records year with
        | .ok s, .ok f, .ok a =>
            match copyLoop .students validIds studFail s with
            | .error _ =>
                { exit := 1, usage := false, crashed := false, committed := [], log := [] }
            | .ok sw =>
                match copyLoop .financials validIds finFail f with
                | .error _ =>
                    { exit := 1, usage := false, crashed := false, committed := [], log := [] }
                | .ok fw =>
                    match copyLoop .academics validIds acadFail a with
                    | .error _ =>
                        { exit := 1, usage := false, crashed := false, committed := [],
                          log := [] }
                    | .ok aw =>
                        { exit := 0, usage := false, crashed := false,
                          committed := sw ++ fw ++ aw, log := [] }
        | _, _, _ => pyCrash

/-! ## Properties of the cleaners -/

/-- A list with no leading whitespace keeps that property when its
trailing whitespace is removed. -/
theorem dropWhile_rdropWhile (p : Char → Bool) (m : List Char)
    (h : List.dropWhile p m = m) :
    List.dropWhile p (List.rdropWhile p m) = List.rdropWhile p m := by
  obtain ⟨t, ht⟩ := List.rdropWhile_prefix p m
  cases hA : List.rdropWhile p m with
  | nil => simp
  | cons c cs =>
    rw [hA] at ht
    rw [← ht] at h
    simp only [List.cons_append] at h
    rw [List.dropWhile_cons] at h ⊢
    by_cases hc : p c
    · exfalso
      have hle := (List.dropWhile_sublist (l := cs ++ t) p).length_le
      rw [if_pos hc] at h
      have hlen2 := congrArg List.length h
      rw [List.length_cons] at hlen2
      omega
    · simp [hc]

/-- A stripped character list has no leading whitespace left. -/
theorem dropWhile_stripChars (l : List Char) :
    List.dropWhile Char.isWhitespace (stripChars l) = stripChars l := by
  unfold stripChars
  exact dropWhile_rdropWhile _ _ (List.dropWhile_idempotent _ _)

/-- Stripping is idempotent on character lists. -/
theorem stripChars_idem (l : List Char) : stripChars (stripChars l) = stripChars l := by
  conv_lhs => rw [stripChars, dropWhile_stripChars]
  rw [stripChars, List.rdropWhile_idempotent]

/-- Python's `strip` is idempotent. -/
theorem pyStrip_idem (s : String) : pyStrip (pyStrip s) = pyStrip s :=
  congrArg String.mk (stripChars_idem s.data)

/-- `cleanIpeds` on a string, written out. -/
theorem cleanIpeds_vStr (s : String) :
    cleanIpeds (.vStr s) =
      if pyStrip s = "" ∨ pyStrip s = "NA" ∨ pyStrip s = "N/A" ∨ pyStrip s = "NULL"
        then .vNone
      else if pyStrip s = "-3" ∨ pyStrip s = "-2" ∨ pyStrip s = "-999" then .vNone
      else .vStr (pyStrip s) := rfl

/-- `cleanScorecard` on a string, written out. -/
theorem cleanScorecard_vStr (s : String) :
    cleanScorecard (.vStr s) =
      if pyStrip s = "" ∨ pyStrip s = "NA" ∨ pyStrip s = "N/A" ∨ pyStrip s = "nan"
          ∨ pyStrip s = "NULL" then .vNone
      else if pyStrip s = "-3" ∨ pyStrip s = "-2" ∨ pyStrip s = "-999" then .vNone
      else .vStr (pyStrip s) := rfl

/-- C10: both value cleaners are idempotent — `clean(clean(v)) =
clean(v)` for every value — the absence marker cleans to itself, and
any string value a cleaner returns is already stripped and lies outside
that cleaner's sentinel set. -/
theorem clean_idempotent :
    (∀ v, cleanIpeds (cleanIpeds v) = cleanIpeds v) ∧
    (∀ v, cleanScorecard (cleanScorecard v) = cleanScorecard v) ∧
    cleanIpeds .vNone = .vNone ∧ cleanScorecard .vNone = .vNone ∧
    (∀ s t, cleanIpeds (.vStr s) = .vStr t →
      pyStrip t = t ∧ t ≠ "" ∧ t ≠ "NA" ∧ t ≠ "N/A" ∧ t ≠ "NULL" ∧
      t ≠ "-3" ∧ t ≠ "-2" ∧ t ≠ "-999") ∧
    (∀ s t, cleanScorecard (.vStr s) = .vStr t →
      pyStrip t = t ∧ t ≠ "" ∧ t ≠ "NA" ∧ t ≠ "N/A" ∧ t ≠ "nan" ∧ t ≠ "NULL" ∧
      t ≠ "-3" ∧ t ≠ "-2" ∧ t ≠ "-999") := by
  refine ⟨?_, ?_, rfl, rfl, ?_, ?_⟩
  · intro v
    match v with
    | .vNone => rfl
    | .vNan => rfl
    | .vNum q =>
        simp only [cleanIpeds]
        split_ifs with h
        · rfl
        · simp only [cleanIpeds, if_neg h]
    | .vStr s =>
        rw [cleanIpeds_vStr s]
        split_ifs with h1 h2
        · rfl
        · rfl
        · rw [cleanIpeds_vStr, pyStrip_idem, if_neg h1, if_neg h2]
  · intro v
    match v with
    | .vNone => rfl
    | .vNan => rfl
    | .vNum q => rfl
    | .vStr s =>
        rw [cleanScorecard_vStr s]
        split_ifs with h1 h2
        · rfl
        · rfl
        · rw [cleanScorecard_vStr, pyStrip_idem, if_neg h1, if_neg h2]
  · intro s t h
    rw [cleanIpeds_vStr s] at h
    split_ifs at h with h1 h2
    obtain rfl : pyStrip s = t := by injection h
    refine ⟨pyStrip_idem s, ?_⟩
    push_neg at h1 h2
    exact ⟨h1.1, h1.2.1, h1.2.2.1, h1.2.2.2, h2.1, h2.2.1, h2.2.2⟩
  · intro s t h
    rw [cleanScorecard_vStr s] at h
    split_ifs at h with h1 h2
    obtain rfl : pyStrip s = t := by injection h
    refine ⟨pyStrip_idem s, ?_⟩
    push_neg at h1 h2
    exact ⟨h1.1, h1.2.1, h1.2.2.1, h1.2.2.2.1, h1.2.2.2.2, h2.1, h2.2.1, h2.2.2⟩

/-- C2: the insert-vs-update partition of `load-ipeds.py` is exhaustive
and disjoint — the insert list is exactly the rows whose key is not
among the existing ids, kept key-first and unchanged; the update list
is exactly the rows whose key is among them, each reshaped with the key
as final positional element and the other fields unchanged; and the two
parts' sizes sum to the batch size. -/
theorem partition_exhaustive_disjoint (existing : List PyVal) (rows : List Row) :
    (partitionIpeds existing rows).1
        = rows.filter (fun r => !(pyMem r.1 existing)) ∧
    (partitionIpeds existing rows).2
        = (rows.filter (fun r => pyMem r.1 existing)).map reshape ∧
    (partitionIpeds existing rows).1.length + (partitionIpeds existing rows).2.length
        = rows.length := by
  induction rows with
  | nil => simp [partitionIpeds]
  | cons r rs ih =>
      obtain ⟨ih1, ih2, ih3⟩ := ih
      by_cases h : pyMem r.1 existing <;>
        simp_all [partitionIpeds, List.filter_cons, h] <;> omega

/-- C4 (code bug): the scorecard variant of `clean` has no
negative-number rule — `clean(-999)` and `clean(-0.5)` come back
unchanged although the function's docstring says "Convert -999,
blanks, and NULL to None" — while the ipeds variant maps every
negative number to the absence marker. -/
theorem clean_negative_divergence :
    cleanScorecard (.vNum (-999)) = .vNum (-999) ∧
    cleanScorecard (.vNum (-(1/2))) = .vNum (-(1/2)) ∧
    cleanIpeds (.vNum (-999)) = .vNone ∧
    cleanIpeds (.vNum (-(1/2))) = .vNone := by
  refine ⟨rfl, rfl, ?_, ?_⟩
  · simp only [cleanIpeds]
    rw [if_pos (by norm_num : (-999 : Rat) < 0)]
  · simp only [cleanIpeds]
    rw [if_pos (by norm_num : (-(1/2) : Rat) < 0)]

/-- A constant-false rejection oracle rejects no row. -/
theorem firstFailure_false (rows : List (List PyVal)) :
    firstFailure (fun _ => false) rows = none := by
  have h : ∀ (l : List (List PyVal)) (i : Nat),
      List.findIdx? (fun _ => false) l i = none := by
    intro l
    induction l with
    | nil => intro i; rfl
    | cons r rs ih =>
        intro i
        rw [List.findIdx?]
        exact (if_neg (by simp)).trans (ih (i + 1))
  exact h rows 0

/-- C7: in both cleaners, every sentinel token — a string whose
stripped form is blank, one of the designated missing-data tokens, or
one of the designated negative sentinel codes — cleans to the absence
marker; and cleaning is the identity on every non-sentinel,
non-negative value: a string already stripped of surrounding
whitespace lying outside the sentinel set comes back unchanged, as
does every non-negative number. -/
theorem clean_sentinels_identity :
    (∀ s, (pyStrip s = "" ∨ pyStrip s = "NA" ∨ pyStrip s = "N/A" ∨ pyStrip s = "NULL" ∨
           pyStrip s = "-3" ∨ pyStrip s = "-2" ∨ pyStrip s = "-999") →
        cleanIpeds (.vStr s) = .vNone) ∧
    (∀ s, (pyStrip s = "" ∨ pyStrip s = "NA" ∨ pyStrip s = "N/A" ∨ pyStrip s = "nan" ∨
           pyStrip s = "NULL" ∨ pyStrip s = "-3" ∨ pyStrip s = "-2" ∨ pyStrip s = "-999") →
        cleanScorecard (.vStr s) = .vNone) ∧
    (∀ s, pyStrip s = s →
        s ∉ (["", "NA", "N/A", "NULL", "-3", "-2", "-999"] : List String) →
        cleanIpeds (.vStr s) = .vStr s) ∧
    (∀ s, pyStrip s = s →
        s ∉ (["", "NA", "N/A", "nan", "NULL", "-3", "-2", "-999"] : List String) →
        cleanScorecard (.vStr s) = .vStr s) ∧
    (∀ q : Rat, 0 ≤ q → cleanIpeds (.vNum q) = .vNum q) ∧
    (∀ q : Rat, 0 ≤ q → cleanScorecard (.vNum q) = .vNum q) := by
  refine ⟨?_, ?_, ?_, ?_, ?_, fun q _ => rfl⟩
  · intro s h
    rw [cleanIpeds_vStr]
    rcases h with h | h | h | h | h | h | h <;> simp [h]
  · intro s h
    rw [cleanScorecard_vStr]
    rcases h with h | h | h | h | h | h | h | h <;> simp [h]
  · intro s hstrip hmem
    simp only [List.mem_cons, List.not_mem_nil, or_false] at hmem
    push_neg at hmem
    obtain ⟨n1, n2, n3, n4, n5, n6, n7⟩ := hmem
    rw [cleanIpeds_vStr, hstrip]
    rw [if_neg (by simp [n1, n2, n3, n4]), if_neg (by simp [n5, n6, n7])]
  · intro s hstrip hmem
    simp only [List.mem_cons, List.not_mem_nil, or_false] at hmem
    push_neg at hmem
    obtain ⟨n1, n2, n3, n4, n5, n6, n7, n8⟩ := hmem
    rw [cleanScorecard_vStr, hstrip]
    rw [if_neg (by simp [n1, n2, n3, n4, n5]), if_neg (by simp [n6, n7, n8])]
  · intro q hq
    simp only [cleanIpeds]
    rw [if_neg (not_lt.mpr hq)]

/-- A concrete instance of `clean_sentinels_identity`: sentinel strings
clean to the absence marker, a plain name and a non-negative number
pass through unchanged. -/
theorem clean_sentinels_identity_witness :
    cleanIpeds (.vStr " NA ") = .vNone ∧
    cleanScorecard (.vStr "nan") = .vNone ∧
    cleanIpeds (.vStr "Harvard University") = .vStr "Harvard University" ∧
    cleanScorecard (.vStr "0.51") = .vStr "0.51" ∧
    cleanIpeds (.vNum 42) = .vNum 42 ∧
    cleanScorecard (.vNum 42) = .vNum 42 := by
  obtain ⟨h1, h2, h3, h4, h5, h6⟩ := clean_sentinels_identity
  exact ⟨h1 " NA " (by right; left; decide),
         h2 "nan" (by right; right; right; left; decide),
         h3 "Harvard University" (by decide) (by decide),
         h4 "0.51" (by decide) (by decide),
         h5 42 (by norm_num), h6 42 (by norm_num)⟩

/-- C3: the fact-table referential filter is a strict subset filter: a
row is kept exactly when its foreign key (the first tuple element) is
among the supplied known ids, so every output row's key lies in that
set and every row with an unknown key is dropped; the output is a
sublist of the input (nothing added or reordered); dropping is silent —
a run whose statements all execute appends nothing to the failure log
and exits 0 even when rows were dropped; and the per-row variant of the
copy script likewise inserts only rows whose key is known. -/
theorem fact_filter_subset :
    (∀ validIds rows (r : Row),
        r ∈ filterFacts validIds rows ↔ r ∈ rows ∧ pyMem r.1 validIds = true) ∧
    (∀ validIds rows, (filterFacts validIds rows).Sublist rows) ∧
    (∀ accredRows sRows fRows aRows validIds,
        (scRun2 accredRows sRows fRows aRows validIds
          (fun _ => false) (fun _ => false) (fun _ => false) (fun _ => false)).log = [] ∧
        (scRun2 accredRows sRows fRows aRows validIds
          (fun _ => false) (fun _ => false) (fun _ => false) (fun _ => false)).exit = 0) ∧
    (∀ tbl validIds fail rows ws, copyLoop tbl validIds fail rows = .ok ws →
        ∀ w ∈ ws, ∃ r, r ∈ rows ∧ w = ⟨tbl, flat r⟩ ∧ pyMem r.1 validIds = true) := by
  refine ⟨?_, ?_, ?_, ?_⟩
  · intro validIds rows r
    simp [filterFacts, List.mem_filter]
  · intro validIds rows
    exact List.filter_sublist _
  · intro accredRows sRows fRows aRows validIds
    simp [scRun2, firstFailure_false]
  · intro tbl validIds fail rows
    induction rows with
    | nil =>
        intro ws h w hw
        rw [copyLoop] at h
        injection h with h
        subst h
        simp at hw
    | cons r rs ih =>
        intro ws h w hw
        rw [copyLoop] at h
        by_cases hm : pyMem r.1 validIds
        · rw [if_pos hm] at h
          by_cases hf : fail (flat r)
          · rw [if_pos hf] at h
            cases h
          · rw [if_neg hf] at h
            cases hrec : copyLoop tbl validIds fail rs with
            | error e => rw [hrec] at h; cases h
            | ok ws2 =>
                rw [hrec] at h
                injection h with h
                subst h
                rcases List.mem_cons.mp hw with hw | hw
                · exact ⟨r, List.mem_cons_self r rs, hw, hm⟩
                · obtain ⟨r2, hr2, hw2, hm2⟩ := ih ws2 hrec w hw
                  exact ⟨r2, List.mem_cons_of_mem r hr2, hw2, hm2⟩
        · rw [if_neg hm] at h
          obtain ⟨r2, hr2, hw2, hm2⟩ := ih ws h w hw
          exact ⟨r2, List.mem_cons_of_mem r hr2, hw2, hm2⟩

/-- A concrete instance of `fact_filter_subset`: with known ids `{1}`,
the row keyed 1 survives the filter and the drop of the row keyed 2 is
silent (empty failure log, exit 0). -/
theorem fact_filter_subset_witness :
    ((PyVal.vNum 1, ([] : List PyVal)) ∈
        filterFacts [PyVal.vNum 1] [(PyVal.vNum 1, []), (PyVal.vNum 2, [])]) ∧
    ¬ ((PyVal.vNum 2, ([] : List PyVal)) ∈
        filterFacts [PyVal.vNum 1] [(PyVal.vNum 1, []), (PyVal.vNum 2, [])]) ∧
    (scRun2 [] [(PyVal.vNum 1, []), (PyVal.vNum 2, [])] [] [] [PyVal.vNum 1]
        (fun _ => false) (fun _ => false) (fun _ => false) (fun _ => false)).log = [] := by
  obtain ⟨h1, _, h3, _⟩ := fact_filter_subset
  refine ⟨(h1 _ _ _).mpr ⟨by decide, by decide⟩, fun hmem => ?_, (h3 _ _ _ _ _).1⟩
  have := ((h1 _ _ _).mp hmem).2
  revert this
  decide

/-! ## Batch-writer behaviour on bulk failure -/

/-- C1 (counterexample): a three-row insert batch against an empty
store where exactly one row (key 2) is poisoned.  The claimed
row-by-row fallback would commit the two good rows and log one record;
the script instead logs the one record and exits 1 with *nothing*
committed — the good rows are rolled back with the transaction, not
retried. -/
theorem bulk_failure_no_fallback_cex :
    (ipedsRun2 []
        [(PyVal.vNum 1, [PyVal.vStr "A"]), (PyVal.vNum 2, [PyVal.vStr "B"]),
         (PyVal.vNum 3, [PyVal.vStr "C"])]
        (fun _ => false) (fun row => pyEq (row.headD .vNone) (.vNum 2))).log.length = 1 ∧
    (ipedsRun2 []
        [(PyVal.vNum 1, [PyVal.vStr "A"]), (PyVal.vNum 2, [PyVal.vStr "B"]),
         (PyVal.vNum 3, [PyVal.vStr "C"])]
        (fun _ => false) (fun row => pyEq (row.headD .vNone) (.vNum 2))).exit = 1 ∧
    (ipedsRun2 []
        [(PyVal.vNum 1, [PyVal.vStr "A"]), (PyVal.vNum 2, [PyVal.vStr "B"]),
         (PyVal.vNum 3, [PyVal.vStr "C"])]
        (fun _ => false) (fun row => pyEq (row.headD .vNone) (.vNum 2))).committed = [] ∧
    Write.mk Table.institutions [PyVal.vNum 1, PyVal.vStr "A"] ∉
      (ipedsRun2 []
        [(PyVal.vNum 1, [PyVal.vStr "A"]), (PyVal.vNum 2, [PyVal.vStr "B"]),
         (PyVal.vNum 3, [PyVal.vStr "C"])]
        (fun _ => false) (fun row => pyEq (row.headD .vNone) (.vNum 2))).committed ∧
    Write.mk Table.institutions [PyVal.vNum 3, PyVal.vStr "C"] ∉
      (ipedsRun2 []
        [(PyVal.vNum 1, [PyVal.vStr "A"]), (PyVal.vNum 2, [PyVal.vStr "B"]),
         (PyVal.vNum 3, [PyVal.vStr "C"])]
        (fun _ => false) (fun row => pyEq (row.headD .vNone) (.vNum 2))).committed := by
  decide

/-- C1 (amended): when a bulk execute rejects some row, neither loader
falls back to row-by-row execution.  `load-ipeds.py` rolls back its
single transaction — no row of the run is committed — appends exactly
one failure-log record and exits 1; `load-scorecard.py` does the same
for a failing fact batch, with only the separately committed
accredagency updates surviving. -/
theorem bulk_failure_aborts_run (existing : List PyVal) (rows : List Row)
    (failU failI : List PyVal → Bool) (i : Nat)
    (hU : firstFailure failU (partitionIpeds existing rows).2 = none)
    (hI : firstFailure failI ((partitionIpeds existing rows).1.map flat) = some i) :
    ((ipedsRun2 existing rows failU failI).committed = [] ∧
     (ipedsRun2 existing rows failU failI).log.length = 1 ∧
     (ipedsRun2 existing rows failU failI).exit = 1) ∧
    (∀ accredRows sRows fRows aRows validIds accredFail studFail finFail acadFail
        (j : Nat),
        firstFailure accredFail accredRows = none →
        firstFailure studFail ((filterFacts validIds sRows).map flat) = some j →
        (scRun2 accredRows sRows fRows aRows validIds accredFail studFail finFail
            acadFail).committed = accredRows.map (Write.mk .institutions) ∧
        (scRun2 accredRows sRows fRows aRows validIds accredFail studFail finFail
            acadFail).log.length = 1 ∧
        (scRun2 accredRows sRows fRows aRows validIds accredFail studFail finFail
            acadFail).exit = 1) := by
  constructor
  · simp only [ipedsRun2, hU, hI]
    simp
  · intro accredRows sRows fRows aRows validIds accredFail studFail finFail acadFail
      j hA hS
    simp only [scRun2, hA, hS]
    simp

/-- A concrete instance of `bulk_failure_aborts_run`: a two-row insert
batch whose second row is rejected commits nothing, logs once, exits
1. -/
theorem bulk_failure_aborts_run_witness :
    (ipedsRun2 [] [(PyVal.vNum 7, [PyVal.vStr "X"]), (PyVal.vNum 8, [PyVal.vStr "Y"])]
        (fun _ => false) (fun row => pyEq (row.headD .vNone) (.vNum 8))).committed = [] ∧
    (ipedsRun2 [] [(PyVal.vNum 7, [PyVal.vStr "X"]), (PyVal.vNum 8, [PyVal.vStr "Y"])]
        (fun _ => false) (fun row => pyEq (row.headD .vNone) (.vNum 8))).log.length = 1 ∧
    (ipedsRun2 [] [(PyVal.vNum 7, [PyVal.vStr "X"]), (PyVal.vNum 8, [PyVal.vStr "Y"])]
        (fun _ => false) (fun row => pyEq (row.headD .vNone) (.vNum 8))).exit = 1 :=
  (bulk_failure_aborts_run []
    [(PyVal.vNum 7, [PyVal.vStr "X"]), (PyVal.vNum 8, [PyVal.vStr "Y"])]
    (fun _ => false) (fun row => pyEq (row.headD .vNone) (.vNum 8)) 1
    (by decide) (by decide)).1

/-! ## Commit boundaries across the fact tables -/

/-- C6 (counterexample): one record, known institution id, Students
batch executes cleanly, Financials batch fails.  Per the claim each
table's write would be committed independently and the Students rows
would survive; instead the run exits 1 with only the accredagency
update committed — the Students insert was rolled back with the shared
transaction. -/
theorem fact_commit_cex :
    (runScorecard ["load-scorecard.py", "scorecard_2022.csv"]
        [[("UNITID", PyVal.vNum 100), ("ACCREDAGENCY", PyVal.vStr "AG")]]
        [PyVal.vNum 100] (fun _ => false) (fun _ => false) (fun _ => true)
        (fun _ => false)).exit = 1 ∧
    (runScorecard ["load-scorecard.py", "scorecard_2022.csv"]
        [[("UNITID", PyVal.vNum 100), ("ACCREDAGENCY", PyVal.vStr "AG")]]
        [PyVal.vNum 100] (fun _ => false) (fun _ => false) (fun _ => true)
        (fun _ => false)).committed
      = [Write.mk Table.institutions [PyVal.vStr "AG", PyVal.vNum 100]] ∧
    (∀ w ∈ (runScorecard ["load-scorecard.py", "scorecard_2022.csv"]
        [[("UNITID", PyVal.vNum 100), ("ACCREDAGENCY", PyVal.vStr "AG")]]
        [PyVal.vNum 100] (fun _ => false) (fun _ => false) (fun _ => true)
        (fun _ => false)).committed, w.table ≠ Table.students) ∧
    (runScorecard ["load-scorecard.py", "scorecard_2022.csv"]
        [[("UNITID", PyVal.vNum 100), ("ACCREDAGENCY", PyVal.vStr "AG")]]
        [PyVal.vNum 100] (fun _ => false) (fun _ => false) (fun _ => true)
        (fun _ => false)).log.length = 1 := by
  decide

/-- C6 (amended): only the accredagency (dimension) update is committed
independently, before the fact writes.  The three fact batches share
one transaction whose single commit comes after all three, so when a
later fact batch fails — here Financials, after Students executed
without failure — the run exits 1 and the committed writes are exactly
the accredagency updates: every executed fact row, including the
sibling Students batch, is rolled back. -/
theorem fact_commit_not_independent (accredRows : List (List PyVal))
    (sRows fRows aRows : List Row) (validIds : List PyVal)
    (accredFail studFail finFail acadFail : List PyVal → Bool) (j : Nat)
    (hA : firstFailure accredFail accredRows = none)
    (hS : firstFailure studFail ((filterFacts validIds sRows).map flat) = none)
    (hF : firstFailure finFail ((filterFacts validIds fRows).map flat) = some j) :
    (scRun2 accredRows sRows fRows aRows validIds accredFail studFail finFail
        acadFail).committed = accredRows.map (Write.mk .institutions) ∧
    (∀ w ∈ (scRun2 accredRows sRows fRows aRows validIds accredFail studFail finFail
        acadFail).committed, w.table = Table.institutions) ∧
    (scRun2 accredRows sRows fRows aRows validIds accredFail studFail finFail
        acadFail).exit = 1 ∧
    (scRun2 accredRows sRows fRows aRows validIds accredFail studFail finFail
        acadFail).log.length = 1 := by
  simp only [scRun2, hA, hS, hF]
  refine ⟨by simp, ?_, by simp, by simp⟩
  intro w hw
  obtain ⟨a, _, rfl⟩ := List.mem_map.mp hw
  rfl

/-- A concrete instance of `fact_commit_not_independent`. -/
theorem fact_commit_not_independent_witness :
    (scRun2 [[PyVal.vStr "AG", PyVal.vNum 100]]
        [(PyVal.vNum 100, [PyVal.vNum 2022])] [(PyVal.vNum 100, [PyVal.vNum 2022])]
        [] [PyVal.vNum 100]
        (fun _ => false) (fun _ => false) (fun _ => true) (fun _ => false)).committed
      = [Write.mk Table.institutions [PyVal.vStr "AG", PyVal.vNum 100]] ∧
    (scRun2 [[PyVal.vStr "AG", PyVal.vNum 100]]
        [(PyVal.vNum 100, [PyVal.vNum 2022])] [(PyVal.vNum 100, [PyVal.vNum 2022])]
        [] [PyVal.vNum 100]
        (fun _ => false) (fun _ => false) (fun _ => true) (fun _ => false)).exit = 1 :=
  let h := fact_commit_not_independent [[PyVal.vStr "AG", PyVal.vNum 100]]
    [(PyVal.vNum 100, [PyVal.vNum 2022])] [(PyVal.vNum 100, [PyVal.vNum 2022])]
    [] [PyVal.vNum 100]
    (fun _ => false) (fun _ => false) (fun _ => true) (fun _ => false) 0
    (by decide) (by decide) (by decide)
  ⟨h.1, h.2.2.1⟩

/-! ## Period extraction and the missing-year run -/

/-- Rows built with `year = None` carry the absence marker in the
period slot (the first element after the key). -/
theorem students_rows_year_none (records : List Record) (sRows : List Row)
    (h : build_students_rows records none = .ok sRows) :
    ∀ r ∈ sRows, r.2.head? = some PyVal.vNone := by
  induction records generalizing sRows with
  | nil =>
      rw [build_students_rows, buildRows] at h
      injection h with h
      subst h
      simp
  | cons rec recs ih =>
      rw [build_students_rows, buildRows] at h
      cases h1 : studentsRow none rec with
      | error e => rw [h1] at h; cases h
      | ok r =>
          cases h2 : buildRows (studentsRow none) recs with
          | error e => rw [h1, h2] at h; cases h
          | ok rs =>
              rw [h1, h2] at h
              injection h with h
              subst h
              intro x hx
              rcases List.mem_cons.mp hx with rfl | hx
              · rw [studentsRow] at h1
                cases h3 : pyInt (rget rec "UNITID") with
                | error e => rw [h3] at h1; cases h1
                | ok uid =>
                    rw [h3] at h1
                    injection h1 with h1
                    rw [← h1]
                    rfl
              · exact ih rs h2 x hx

/-- C5 (counterexample): `snapshot.csv` has no numeric token, so
`extract_year` returns `None` — but nothing checks that: instead of
aborting with exit code 1 before any write, the run proceeds, commits
the accredagency update and the fact inserts, logs nothing, and exits
0. -/
theorem extract_year_no_abort_cex :
    extract_year "snapshot.csv" = none ∧
    (runScorecard ["load-scorecard.py", "snapshot.csv"]
        [[("UNITID", PyVal.vNum 100), ("ACCREDAGENCY", PyVal.vStr "AG")]]
        [PyVal.vNum 100]
        (fun _ => false) (fun _ => false) (fun _ => false) (fun _ => false)).exit = 0 ∧
    (runScorecard ["load-scorecard.py", "snapshot.csv"]
        [[("UNITID", PyVal.vNum 100), ("ACCREDAGENCY", PyVal.vStr "AG")]]
        [PyVal.vNum 100]
        (fun _ => false) (fun _ => false) (fun _ => false) (fun _ => false)).committed
      ≠ [] ∧
    (runScorecard ["load-scorecard.py", "snapshot.csv"]
        [[("UNITID", PyVal.vNum 100), ("ACCREDAGENCY", PyVal.vStr "AG")]]
        [PyVal.vNum 100]
        (fun _ => false) (fun _ => false) (fun _ => false) (fun _ => false)).log = [] := by
  refine ⟨?_, ?_, ?_, ?_⟩ <;> decide

/-- C5 (amended): on a filename with no all-digit token `extract_year`
returns `None` without raising, and the run is *not* aborted: with the
argument present, clean row builds and no statement failures, the run
exits 0, crashes nowhere, logs nothing, commits the accredagency
updates and every filtered fact row — and the Students fact rows carry
the absence marker in their period slot. -/
theorem extract_year_none_run_proceeds (argv0 path : String)
    (records : List Record) (validIds : List PyVal) (sRows fRows aRows : List Row)
    (hyear : extract_year path = none)
    (hs : build_students_rows records none = .ok sRows)
    (hf : build_financials_rows records none = .ok fRows)
    (ha : build_academics_rows records none = .ok aRows) :
    (runScorecard [argv0, path] records validIds (fun _ => false) (fun _ => false)
        (fun _ => false) (fun _ => false)).exit = 0 ∧
    (runScorecard [argv0, path] records validIds (fun _ => false) (fun _ => false)
        (fun _ => false) (fun _ => false)).crashed = false ∧
    (runScorecard [argv0, path] records validIds (fun _ => false) (fun _ => false)
        (fun _ => false) (fun _ => false)).log = [] ∧
    (runScorecard [argv0, path] records validIds (fun _ => false) (fun _ => false)
        (fun _ => false) (fun _ => false)).committed =
      (buildAccredRows records).map (Write.mk .institutions)
        ++ ((filterFacts validIds sRows).map flat).map (Write.mk .students)
        ++ ((filterFacts validIds fRows).map flat).map (Write.mk .financials)
        ++ ((filterFacts validIds aRows).map flat).map (Write.mk .academics) ∧
    (∀ r ∈ sRows, r.2.head? = some PyVal.vNone) := by
  simp only [runScorecard, List.get?, hyear, hs, hf, ha]
  simp only [scRun2, firstFailure_false]
  exact ⟨by simp, by simp, by simp, by simp, students_rows_year_none records sRows hs⟩

/-- A concrete instance of `extract_year_none_run_proceeds` on the
spec's own scenario filename `snapshot.csv`. -/
theorem extract_year_none_run_proceeds_witness :
    (runScorecard ["load-scorecard.py", "snapshot.csv"] [[("UNITID", PyVal.vNum 100)]]
        [PyVal.vNum 100] (fun _ => false) (fun _ => false) (fun _ => false)
        (fun _ => false)).exit = 0 ∧
    (runScorecard ["load-scorecard.py", "snapshot.csv"] [[("UNITID", PyVal.vNum 100)]]
        [PyVal.vNum 100] (fun _ => false) (fun _ => false) (fun _ => false)
        (fun _ => false)).log = [] :=
  let h := extract_year_none_run_proceeds "load-scorecard.py" "snapshot.csv"
    [[("UNITID", PyVal.vNum 100)]] [PyVal.vNum 100]
    [(PyVal.vNum 100, [PyVal.vNone, PyVal.vNone, PyVal.vNone, PyVal.vNone,
      PyVal.vNone, PyVal.vNone])]
    [(PyVal.vNum 100, [PyVal.vNone, PyVal.vNone, PyVal.vNone, PyVal.vNone,
      PyVal.vNone, PyVal.vNone])]
    [(PyVal.vNum 100, [PyVal.vNone, PyVal.vNone, PyVal.vNone, PyVal.vNone])]
    (by decide) (by rfl) (by rfl) (by rfl)
  ⟨h.1, h.2.2.1⟩

/-! ## Row-mapper behaviour on missing keys -/

/-- C8 (counterexample): no MissingKeyError exists.  A record whose
`UNITID` cleans to the absence marker (here `"-5"`: parsed by `int`,
then nulled by the negative rule) is *not* rejected — `to_row` returns
a row with a `None` key, which stays in the batch.  And a record with
no parseable key at all does not cost just that row: `int()` raises,
the whole mapping returns the error, and the run crashes (exit 1,
nothing committed), so the remaining rows are never attempted. -/
theorem row_mapper_no_rejection_cex :
    (∃ rest, to_row [("UNITID", PyVal.vStr "-5"), ("INSTNM", PyVal.vStr "A")]
        = .ok (PyVal.vNone, rest)) ∧
    mapRowsIpeds [[("UNITID", PyVal.vNum 1)], [("INSTNM", PyVal.vStr "B")],
        [("UNITID", PyVal.vNum 3)]]
      = .error "TypeError: int() argument is None" ∧
    (runIpeds ["load-ipeds.py", "hd2022.csv"]
        [[("UNITID", PyVal.vNum 1)], [("INSTNM", PyVal.vStr "B")],
         [("UNITID", PyVal.vNum 3)]]
        [] (fun _ => false) (fun _ => false)).crashed = true ∧
    (runIpeds ["load-ipeds.py", "hd2022.csv"]
        [[("UNITID", PyVal.vNum 1)], [("INSTNM", PyVal.vStr "B")],
         [("UNITID", PyVal.vNum 3)]]
        [] (fun _ => false) (fun _ => false)).committed = [] := by
  exact ⟨⟨_, rfl⟩, rfl, rfl, rfl⟩

/-- C8 (amended): the row mapper never rejects a row over a missing
key.  Whenever `int()` succeeds on the key field the record is mapped
and kept — its key slot is `clean(int(...))`, which may well be the
absence marker; `to_row` fails exactly when `int()` raises; a
successful mapping keeps every record (no row is excluded); and one
record whose key field cannot be coerced is fatal to the entire
mapping, not just to that row. -/
theorem row_mapper_no_missing_key_rejection :
    (∀ (rec : Record) (n : Int), pyInt (rget rec "UNITID") = .ok n →
        ∃ rest, to_row rec = .ok (cleanIpeds (.vNum (n : Rat)), rest)) ∧
    (∀ (rec : Record) (e : String), pyInt (rget rec "UNITID") = .error e →
        to_row rec = .error e) ∧
    (∀ (recs : List Record) (rows : List Row), mapRowsIpeds recs = .ok rows →
        rows.length = recs.length) ∧
    (∀ (pre post : List Record) (rec : Record) (e : String),
        (∀ rc ∈ pre, ∃ r, to_row rc = .ok r) → to_row rec = .error e →
        mapRowsIpeds (pre ++ rec :: post) = .error e) := by
  refine ⟨?_, ?_, ?_, ?_⟩
  · intro rec n h
    rw [to_row, h]
    exact ⟨_, rfl⟩
  · intro rec e h
    rw [to_row, h]
  · intro recs
    induction recs with
    | nil =>
        intro rows h
        rw [mapRowsIpeds, buildRows] at h
        injection h with h
        subst h
        rfl
    | cons rec recs ih =>
        intro rows h
        rw [mapRowsIpeds, buildRows] at h
        cases h1 : to_row rec with
        | error e => rw [h1] at h; cases h
        | ok r =>
            cases h2 : buildRows to_row recs with
            | error e => rw [h1, h2] at h; cases h
            | ok rs =>
                rw [h1, h2] at h
                injection h with h
                subst h
                have := ih rs h2
                simp [this]
  · intro pre
    induction pre with
    | nil =>
        intro post rec e _ herr
        rw [mapRowsIpeds, List.nil_append, buildRows, herr]
    | cons p pre ih =>
        intro post rec e hok herr
        obtain ⟨r, hr⟩ := hok p (List.mem_cons_self p pre)
        have hrest := ih post rec e
          (fun rc hrc => hok rc (List.mem_cons_of_mem p hrc)) herr
        rw [mapRowsIpeds] at hrest ⊢
        rw [List.cons_append, buildRows, hr, hrest]

/-! ## CLI argument handling -/

/-- C9 (counterexample): invoked with no positional argument,
`load-ipeds.py` and `load-scorecard.py` do not exit 2 with a usage
message — `sys.argv[1]` raises an uncaught `IndexError`, so the
interpreter exits with code 1 and prints a traceback, performing no
pipeline work. -/
theorem cli_missing_arg_cex :
    (runIpeds ["load-ipeds.py"] [] [] (fun _ => false) (fun _ => false)).exit = 1 ∧
    (runIpeds ["load-ipeds.py"] [] [] (fun _ => false) (fun _ => false)).usage = false ∧
    (runIpeds ["load-ipeds.py"] [] [] (fun _ => false) (fun _ => false)).crashed = true ∧
    (runScorecard ["load-scorecard.py"] [] [] (fun _ => false) (fun _ => false)
        (fun _ => false) (fun _ => false)).exit = 1 ∧
    (runScorecard ["load-scorecard.py"] [] [] (fun _ => false) (fun _ => false)
        (fun _ => false) (fun _ => false)).usage = false := by
  exact ⟨rfl, rfl, rfl, rfl, rfl⟩

/-- C9 (amended): only `load-scorecard_copy.py` checks its arguments —
with an argument count other than one it prints the usage message and
exits with code 2, committing and logging nothing.  The other two
loaders index `sys.argv[1]` unguarded: with no positional argument they
die on an uncaught `IndexError` (exit code 1, no usage message, no
pipeline work). -/
theorem cli_argv_handling (argv : List String) (records : List Record)
    (validIds : List PyVal) (sf ff af : List PyVal → Bool)
    (h : argv.length ≠ 2) :
    ((runCopy argv records validIds sf ff af).exit = 2 ∧
     (runCopy argv records validIds sf ff af).usage = true ∧
     (runCopy argv records validIds sf ff af).committed = [] ∧
     (runCopy argv records validIds sf ff af).log = []) ∧
    (∀ (argv2 : List String), argv2.get? 1 = none →
      ∀ (records2 : List Record) (existing : List PyVal) (fu fi : List PyVal → Bool)
        (validIds2 : List PyVal) (af2 sf2 ff2 af3 : List PyVal → Bool),
        runIpeds argv2 records2 existing fu fi = pyCrash ∧
        runScorecard argv2 records2 validIds2 af2 sf2 ff2 af3 = pyCrash) := by
  constructor
  · simp only [runCopy, if_pos h]
    simp
  · intro argv2 h2 records2 existing fu fi validIds2 af2 sf2 ff2 af3
    constructor
    · simp only [runIpeds, h2]
    · simp only [runScorecard, h2]

/-- A concrete instance of `cli_argv_handling`: the copy script with no
argument exits 2 with the usage message and does nothing. -/
theorem cli_argv_handling_witness :
    (runCopy ["load-scorecard_copy.py"] [] [] (fun _ => false) (fun _ => false)
        (fun _ => false)).exit = 2 ∧
    (runCopy ["load-scorecard_copy.py"] [] [] (fun _ => false) (fun _ => false)
        (fun _ => false)).usage = true ∧
    (runCopy ["load-scorecard_copy.py"] [] [] (fun _ => false) (fun _ => false)
        (fun _ => false)).committed = [] :=
  let h := cli_argv_handling ["load-scorecard_copy.py"] [] []
    (fun _ => false) (fun _ => false) (fun _ => false) (by decide)
  ⟨h.1.1, h.1.2.1, h.1.2.2.1⟩
